import Mathlib

/-!
# Verification of the duplicate-content filters of `eduapp`

This file gives a shallow embedding of the duplicate-detection components of
the repository (`isee_generator.py`, `isee_spellbee.py`, `readcomp9_gemini.py`,
`isee_vocab.py`) and proves properties of them.

Modelling conventions:
* Python `str` is modelled by Lean `String` / `List Char`; character classes
  (`\s`, `\w`, `str.lower`) are modelled over their ASCII meaning, which covers
  all inputs appearing in the development.
* Python `set` objects are modelled by lists, queried only through membership,
  which is insensitive to order and multiplicity.
* `hashlib.sha256(x).hexdigest()` and `hashlib.md5(x).hexdigest()` are modelled
  by injective encodings (the hashed text itself): the scripts only ever compare
  hashes for equality, and distinct short inputs have distinct digests.
* `difflib.SequenceMatcher(None, a, b).ratio()` is translated in full
  (the `b2j` index, autojunk purge of popular elements, the dynamic-programming
  longest-match search, the extension loops, and the matching-block recursion);
  since `isjunk` is `None` at every call site, the junk set `bjunk` is empty and
  the junk-extension loops of `find_longest_match` are vacuous, so they are
  omitted.  The ratio is computed in `ℚ` instead of binary floating point; all
  boundary values used below (`0.85 = 17/20` against totals of `40`) are exactly
  representable, so the comparisons agree with the floating-point ones.
* Supabase reads are modelled by an `Except Unit` value handed to the loaders:
  `.error` is the path into the `except:` handler of each loader, `.ok` carries
  the already-decoded records.  Failures in the middle of decoding a record are
  not modelled; records are well-typed.
-/

set_option maxRecDepth 100000

namespace EduApp

/-- ASCII model of the regex class `\s` (Python whitespace). -/
def pyIsSpace (c : Char) : Bool :=
  c == ' ' || c == '\t' || c == '\n' || c == '\r' || c == Char.ofNat 11 || c == Char.ofNat 12

/-- ASCII model of the regex class `\w` (word characters). -/
def pyIsWordChar (c : Char) : Bool :=
  c.isAlpha || c.isDigit || c == '_'

/-- Python `str.lower()` on a character list. -/
def pyLower (s : List Char) : List Char :=
  s.map Char.toLower

/-- Drop trailing whitespace. -/
def stripRight (s : List Char) : List Char :=
  (s.reverse.dropWhile pyIsSpace).reverse

/-- Python `str.strip()` : drop leading and trailing whitespace. -/
def pyStrip (s : List Char) : List Char :=
  ((s.dropWhile pyIsSpace).reverse.dropWhile pyIsSpace).reverse

/-- Worker for `re.sub(r'\s+', ' ', s)`: the flag records whether the previous
character was part of a whitespace run that has already emitted its space. -/
def collapseAux : Bool → List Char → List Char
  | _, [] => []
  | inRun, c :: rest =>
    if pyIsSpace c then
      if inRun then collapseAux true rest
      else ' ' :: collapseAux true rest
    else c :: collapseAux false rest

/-- Python `re.sub(r'\s+', ' ', s)` : collapse every whitespace run to one space. -/
def pyCollapseWs (s : List Char) : List Char :=
  collapseAux false s

/-- Python `re.sub(r'[^\w\s]', '', s)` : drop characters that are neither word
characters nor whitespace. -/
def pyDropNonWordSpace (s : List Char) : List Char :=
  s.filter (fun c => pyIsWordChar c || pyIsSpace c)

/-- Worker for `str.split()`: accumulate the current word (reversed). -/
def splitAux : List Char → List Char → List (List Char)
  | acc, [] => if acc.isEmpty then [] else [acc.reverse]
  | acc, c :: rest =>
    if pyIsSpace c then
      if acc.isEmpty then splitAux [] rest
      else acc.reverse :: splitAux [] rest
    else splitAux (c :: acc) rest

/-- Python `str.split()` with no argument: split on whitespace runs, no empty parts. -/
def pySplit (s : List Char) : List (List Char) :=
  splitAux [] s

/-- Python `sep.join(parts)` for a one-character separator. -/
def pyJoin (sep : Char) : List (List Char) → List Char
  | [] => []
  | [w] => w
  | w :: ws => w ++ sep :: pyJoin sep ws

/-- Lexicographic (code-point) strict comparison of Python strings. -/
def lexLt : List Char → List Char → Bool
  | [], [] => false
  | [], _ :: _ => true
  | _ :: _, [] => false
  | a :: as, b :: bs => if a.val < b.val then true else if b.val < a.val then false else lexLt as bs

/-- Python `sorted(set(ws))` : distinct elements in ascending lexicographic order. -/
def pySortedSet (ws : List (List Char)) : List (List Char) :=
  (ws.eraseDups).mergeSort (fun a b => !(lexLt b a))

/-- Python `str.lower()` at `String` type. -/
def pyLowerString (s : String) : String :=
  String.mk (pyLower s.data)

/-- Python `str.lower().strip()` at `String` type. -/
def pyLowerStrip (s : String) : String :=
  String.mk (pyStrip (pyLower s.data))

/-!
## `difflib.SequenceMatcher` (as called: `SequenceMatcher(None, a, b).ratio()`)
-/

namespace Difflib

/-- Insert index `i` of character `c` at the end of its entry of the `b2j`
association list (indices stay in ascending order). -/
def addIndex : List (Char × List Nat) → Char → Nat → List (Char × List Nat)
  | [], c, i => [(c, [i])]
  | (c', js) :: rest, c, i =>
    if c' == c then (c', js ++ [i]) :: rest else (c', js) :: addIndex rest c i

/-- The raw `b2j` map of `__chain_b`: character → ascending list of its
positions in `b`. -/
def b2jRaw (b : List Char) : List (Char × List Nat) :=
  (b.enum).foldl (fun m p => addIndex m p.2 p.1) []

/-- Python `__chain_b` with `isjunk = None`: build `b2j` and, when `autojunk` applies
(`len(b) >= 200`), purge the popular elements (count `> len(b) // 100 + 1`). -/
def chainB (b : List Char) : List (Char × List Nat) :=
  let m := b2jRaw b
  let n := b.length
  if 200 ≤ n then
    let ntest := n / 100 + 1
    m.filter (fun p => decide (p.2.length ≤ ntest))
  else m

/-- Python `b2j.get(c, [])`. -/
def b2jGet (m : List (Char × List Nat)) (c : Char) : List Nat :=
  match m.find? (fun p => p.1 == c) with
  | some p => p.2
  | none => []

/-- Python `j2len.get(j, 0)`. -/
def jGet (m : List (Nat × Nat)) (j : Nat) : Nat :=
  match m.find? (fun p => p.1 == j) with
  | some p => p.2
  | none => 0

/-- Python `a[i] == b[j]`, false when either index is out of range. -/
def charAtEq (a b : List Char) (i j : Nat) : Bool :=
  match a.get? i, b.get? j with
  | some x, some y => x == y
  | _, _ => false

/-- The dynamic-programming phase of `find_longest_match`: for each `i` in
`[alo, ahi)` and each position `j` of `a[i]` in `b` with `blo <= j < bhi`,
`k = j2len.get(j-1, 0) + 1` extends the run ending at `(i-1, j-1)`; the best
(longest, then earliest) block is tracked. -/
def flmDP (a : List Char) (b2j : List (Char × List Nat)) (alo ahi blo bhi : Nat) :
    Nat × Nat × Nat :=
  let step := fun (acc : (Nat × Nat × Nat) × List (Nat × Nat)) (i : Nat) =>
    let j2len := acc.2
    let js := (b2jGet b2j (a.getD i ' ')).filter (fun j => blo ≤ j && j < bhi)
    js.foldl (fun (acc2 : (Nat × Nat × Nat) × List (Nat × Nat)) (j : Nat) =>
        let best := acc2.1
        let k := (if j == 0 then 0 else jGet j2len (j - 1)) + 1
        let best' := if best.2.2 < k then (i + 1 - k, j + 1 - k, k) else best
        (best', (j, k) :: acc2.2))
      (acc.1, [])
  ((List.range' alo (ahi - alo)).foldl step ((alo, blo, 0), [])).1

/-- The backward extension loop of `find_longest_match` (with `bjunk` empty). -/
def extendBack (a b : List Char) (alo blo : Nat) :
    Nat → Nat → Nat → Nat → Nat × Nat × Nat
  | 0, besti, bestj, bestsize => (besti, bestj, bestsize)
  | fuel + 1, besti, bestj, bestsize =>
    if alo < besti && blo < bestj && charAtEq a b (besti - 1) (bestj - 1) then
      extendBack a b alo blo fuel (besti - 1) (bestj - 1) (bestsize + 1)
    else (besti, bestj, bestsize)

/-- The forward extension loop of `find_longest_match` (with `bjunk` empty). -/
def extendFwd (a b : List Char) (ahi bhi : Nat) :
    Nat → Nat → Nat → Nat → Nat × Nat × Nat
  | 0, besti, bestj, bestsize => (besti, bestj, bestsize)
  | fuel + 1, besti, bestj, bestsize =>
    if besti + bestsize < ahi && bestj + bestsize < bhi &&
        charAtEq a b (besti + bestsize) (bestj + bestsize) then
      extendFwd a b ahi bhi fuel besti bestj (bestsize + 1)
    else (besti, bestj, bestsize)

/-- Python `find_longest_match(alo, ahi, blo, bhi)`; the junk-extension loops are
vacuous because `isjunk` is `None` at every call site. -/
def findLongestMatch (a b : List Char) (b2j : List (Char × List Nat))
    (alo ahi blo bhi : Nat) : Nat × Nat × Nat :=
  let r := flmDP a b2j alo ahi blo bhi
  let r2 := extendBack a b alo blo r.1 r.1 r.2.1 r.2.2
  extendFwd a b ahi bhi ahi r2.1 r2.2.1 r2.2.2

/-- The recursion of `get_matching_blocks`, summing the sizes of the matching
blocks (their order is irrelevant for `ratio`).  The queue is LIFO, as in the
source; `fuel` dominates the number of loop iterations. -/
def matchesAux (a b : List Char) (b2j : List (Char × List Nat)) :
    Nat → List (Nat × Nat × Nat × Nat) → Nat
  | 0, _ => 0
  | _, [] => 0
  | fuel + 1, (alo, ahi, blo, bhi) :: queue =>
    let r := findLongestMatch a b b2j alo ahi blo bhi
    let i := r.1
    let j := r.2.1
    let k := r.2.2
    if k == 0 then matchesAux a b b2j fuel queue
    else
      let queue1 := if alo < i && blo < j then (alo, i, blo, j) :: queue else queue
      let queue2 := if i + k < ahi && j + k < bhi then (i + k, ahi, j + k, bhi) :: queue1 else queue1
      k + matchesAux a b b2j fuel queue2

/-- Total number of matching characters of `get_matching_blocks()`. -/
def totalMatches (a b : List Char) : Nat :=
  matchesAux a b (chainB b) (2 * (a.length + b.length) + 4) [(0, a.length, 0, b.length)]

/-- Python `SequenceMatcher(None, a, b).ratio() = 2 * M / T`, with `T = 0` giving `1`,
computed exactly in `ℚ` (as `mkRat`, so that it evaluates by reduction). -/
def ratio (a b : List Char) : ℚ :=
  let total := a.length + b.length
  if total = 0 then 1
  else mkRat (2 * (totalMatches a b : Int)) total

end Difflib

/-- The quote character `'`, used in a reason string of `isee_spellbee.py`. -/
def pySingleQuote : String :=
  String.mk [Char.ofNat 39]

/-!
## `isee_generator.py` : `PassageDuplicateDetector`
-/

namespace IseeGenerator

/-- Python `FUZZY_SIMILARITY_THRESHOLD = 0.85 = 17/20` (`isee_generator.py`, line 38). -/
def FUZZY_SIMILARITY_THRESHOLD : ℚ := mkRat 17 20

/-- Python `MIN_PASSAGE_LENGTH = 200` (`isee_generator.py`, line 39). -/
def MIN_PASSAGE_LENGTH : Nat := 200

/-- The in-memory index of `PassageDuplicateDetector`.  The two Python sets
are modelled by lists queried through membership. -/
structure PassageDuplicateDetector where
  existing_passages : List String
  existing_hashes : List String
  existing_fingerprints : List String
deriving DecidableEq, Repr

namespace PassageDuplicateDetector

/-- Python `_create_content_hash`: SHA-256 over
`re.sub(r'\s+', ' ', text.lower().strip())`; the digest is modelled by the
normalized text itself (an injective encoding, since the scripts only compare
digests for equality). -/
def create_content_hash (text : String) : String :=
  String.mk (pyCollapseWs (pyStrip (pyLower text.data)))

/-- Python `_create_content_fingerprint`: MD5 of the sorted set of words longer than 3
characters of the punctuation-free, lowercased, whitespace-normalized text,
joined with a bar; the digest is modelled by the joined text itself. -/
def create_content_fingerprint (text : String) : String :=
  let normalized := pyCollapseWs (pyStrip (pyDropNonWordSpace (pyLower text.data)))
  let words := (pySplit normalized).filter (fun w => 3 < w.length)
  String.mk (pyJoin '|' (pySortedSet words))

/-- Python `_calculate_fuzzy_similarity`: `SequenceMatcher` ratio of the two texts
after lowercasing and removing punctuation (no whitespace collapsing here). -/
def calculate_fuzzy_similarity (text1 text2 : String) : ℚ :=
  Difflib.ratio (pyDropNonWordSpace (pyLower text1.data))
    (pyDropNonWordSpace (pyLower text2.data))

/-- Python `is_duplicate`: length gate, then exact hash, then fingerprint, then the
fuzzy scan (`similarity >= FUZZY_SIMILARITY_THRESHOLD`).  The interpolated
percentage of the fuzzy reason string is elided. -/
def is_duplicate (self : PassageDuplicateDetector) (new_passage : String) :
    Bool × String :=
  if new_passage = "" ∨ (pyStrip new_passage.data).length < MIN_PASSAGE_LENGTH then
    (true, "Passage too short")
  else if create_content_hash (String.mk (pyStrip new_passage.data)) ∈ self.existing_hashes then
    (true, "Exact duplicate (hash match)")
  else if create_content_fingerprint (String.mk (pyStrip new_passage.data)) ∈
      self.existing_fingerprints then
    (true, "Near duplicate (fingerprint match)")
  else
    match self.existing_passages.find?
        (fun q => decide (FUZZY_SIMILARITY_THRESHOLD ≤
          calculate_fuzzy_similarity (String.mk (pyStrip new_passage.data)) q)) with
    | some _ => (true, "High similarity to existing passage")
    | none => (false, "Unique passage")

/-- Python `add_passage`: record the stripped passage, its hash and its fingerprint,
but only when the stripped passage is strictly longer than
`MIN_PASSAGE_LENGTH`. -/
def add_passage (self : PassageDuplicateDetector) (passage : String) :
    PassageDuplicateDetector :=
  if passage ≠ "" ∧ MIN_PASSAGE_LENGTH < (pyStrip passage.data).length then
    { existing_passages := self.existing_passages ++ [String.mk (pyStrip passage.data)],
      existing_hashes :=
        create_content_hash (String.mk (pyStrip passage.data)) :: self.existing_hashes,
      existing_fingerprints :=
        create_content_fingerprint (String.mk (pyStrip passage.data)) :: self.existing_fingerprints }
  else self

/-- Python `load_existing_passages`: each fetched record contributes its `context`
field when present; contexts whose stripped length exceeds
`MIN_PASSAGE_LENGTH` are kept (stripped).  On fetch failure the `except:`
handler resets all three index components to empty. -/
def load_existing_passages (fetch : Except Unit (List (Option String))) :
    PassageDuplicateDetector :=
  match fetch with
  | .error _ => ⟨[], [], []⟩
  | .ok recs =>
    let passages := recs.filterMap (fun ctx =>
      match ctx with
      | none => none
      | some c =>
        if c ≠ "" ∧ MIN_PASSAGE_LENGTH < (pyStrip c.data).length then
          some (String.mk (pyStrip c.data))
        else none)
    ⟨passages, passages.map create_content_hash, passages.map create_content_fingerprint⟩

end PassageDuplicateDetector

end IseeGenerator

/-!
## `isee_spellbee.py` : `SpellBeeDuplicateDetector`
-/

namespace IseeSpellbee

/-- The in-memory index of `SpellBeeDuplicateDetector` (two Python sets,
modelled by lists queried through membership). -/
structure SpellBeeDuplicateDetector where
  existing_words : List String
  existing_questions : List String
deriving DecidableEq, Repr

/-- A Python exception raised by attribute access on `None`. -/
inductive PyError where
  | attributeError
deriving DecidableEq, Repr

namespace SpellBeeDuplicateDetector

/-- The reason string `f"Word '{word}' already exists"`. -/
def word_exists_reason (word : String) : String :=
  "Word " ++ pySingleQuote ++ word ++ pySingleQuote ++ " already exists"

/-- Python `is_duplicate`: exact (lowercased) word match, then exact (lowercased)
question match. -/
def is_duplicate (self : SpellBeeDuplicateDetector) (word question : String) :
    Bool × String :=
  if pyLowerString word ∈ self.existing_words then
    (true, word_exists_reason word)
  else if pyLowerString question ∈ self.existing_questions then
    (true, "Question already exists")
  else
    (false, "Unique spelling bee item")

/-- Python `is_duplicate` under Python's dynamic typing: a `None` argument raises
`AttributeError` at its `.lower()` call (`word` first; `question` only when
the word test fails). -/
def is_duplicate_checked (self : SpellBeeDuplicateDetector)
    (word question : Option String) : Except PyError (Bool × String) :=
  match word with
  | none => .error .attributeError
  | some w =>
    if pyLowerString w ∈ self.existing_words then
      .ok (true, word_exists_reason w)
    else
      match question with
      | none => .error .attributeError
      | some q =>
        if pyLowerString q ∈ self.existing_questions then
          .ok (true, "Question already exists")
        else
          .ok (false, "Unique spelling bee item")

/-- Python `add_word`: record the lowercased word and question. -/
def add_word (self : SpellBeeDuplicateDetector) (word question : String) :
    SpellBeeDuplicateDetector :=
  { existing_words := pyLowerString word :: self.existing_words,
    existing_questions := pyLowerString question :: self.existing_questions }

/-- Python `load_existing_spellbee`: each record contributes its `word` and
`question` fields (lowercased) when present; on fetch failure the `except:`
handler resets both sets to empty. -/
def load_existing_spellbee (self : SpellBeeDuplicateDetector)
    (fetch : Except Unit (List (Option String × Option String))) :
    SpellBeeDuplicateDetector :=
  match fetch with
  | .error _ => ⟨[], []⟩
  | .ok recs =>
    recs.foldl (fun st rec =>
      let st1 := match rec.1 with
        | some w => { st with existing_words := pyLowerString w :: st.existing_words }
        | none => st
      match rec.2 with
      | some q => { st1 with existing_questions := pyLowerString q :: st1.existing_questions }
      | none => st1) self

end SpellBeeDuplicateDetector

end IseeSpellbee

/-!
## `readcomp9_gemini.py` : `UniversalDuplicateDetector`
-/

namespace Readcomp9

/-- Python `FUZZY_SIMILARITY_THRESHOLD = 0.85 = 17/20` (`readcomp9_gemini.py`, line 42). -/
def FUZZY_SIMILARITY_THRESHOLD : ℚ := mkRat 17 20

/-- Python `detection_stats` (the float `load_time` entry is not modelled). -/
structure DetectionStats where
  total_checks : Nat
  exact_duplicates : Nat
  fuzzy_duplicates : Nat
  unique_items : Nat
deriving DecidableEq, Repr

/-- The state of `UniversalDuplicateDetector` (three Python sets and the
fingerprint list, modelled by lists; sets are queried through membership). -/
structure UniversalDuplicateDetector where
  existing_questions : List String
  existing_passages : List String
  existing_concepts : List String
  question_fingerprints : List String
  loaded : Bool
  detection_stats : DetectionStats
deriving DecidableEq, Repr

/-- One decoded record of the bulk load: the optional `question` text, the
three optional passage-like fields and the three optional concept fields. -/
structure RCRecord where
  question : Option String
  context : Option String
  passage : Option String
  context_sentence : Option String
  grammar_concept : Option String
  synonym_concept : Option String
  antonym_concept : Option String

namespace UniversalDuplicateDetector

/-- Python `__init__`: everything empty, `loaded = False`, zeroed stats. -/
def init : UniversalDuplicateDetector :=
  ⟨[], [], [], [], false, ⟨0, 0, 0, 0⟩⟩

/-- The question fingerprint: drop `[^\w\s]`, then `' '.join(s.split())`. -/
def fingerprintOf (question_lower : String) : String :=
  String.mk (pyJoin ' ' (pySplit (pyDropNonWordSpace question_lower.data)))

/-- Python `is_duplicate`: bump `total_checks`, test the exact question and passage
sets, then scan the fingerprints with `similarity > FUZZY_SIMILARITY_THRESHOLD`
(strict).  Returns the classification together with the mutated state.  The
interpolated percentage of the fuzzy reason string is elided. -/
def is_duplicate (self : UniversalDuplicateDetector)
    (question_text passage concept : String) :
    (Bool × String) × UniversalDuplicateDetector :=
  let s0 := { self with detection_stats :=
    { self.detection_stats with total_checks := self.detection_stats.total_checks + 1 } }
  let question_lower := pyLowerStrip question_text
  let passage_lower := pyLowerStrip passage
  let _concept_lower := pyLowerStrip concept
  if question_lower ∈ s0.existing_questions then
    ((true, "Exact question exists"),
     { s0 with detection_stats :=
       { s0.detection_stats with exact_duplicates := s0.detection_stats.exact_duplicates + 1 } })
  else if passage_lower ∈ s0.existing_passages then
    ((true, "Passage already used"),
     { s0 with detection_stats :=
       { s0.detection_stats with exact_duplicates := s0.detection_stats.exact_duplicates + 1 } })
  else
    let current_fingerprint := fingerprintOf question_lower
    match s0.question_fingerprints.find?
        (fun f => decide (FUZZY_SIMILARITY_THRESHOLD < Difflib.ratio current_fingerprint.data f.data)) with
    | some _ =>
      ((true, "Too similar to existing question"),
       { s0 with detection_stats :=
         { s0.detection_stats with fuzzy_duplicates := s0.detection_stats.fuzzy_duplicates + 1 } })
    | none =>
      ((false, "Unique question"),
       { s0 with detection_stats :=
         { s0.detection_stats with unique_items := s0.detection_stats.unique_items + 1 } })

/-- Python `is_duplicate` under Python's dynamic typing: the three `.lower()` calls
run before any branching, so a `None` argument (in any position) raises
`AttributeError`. -/
def is_duplicate_checked (self : UniversalDuplicateDetector)
    (question_text passage concept : Option String) :
    Except IseeSpellbee.PyError ((Bool × String) × UniversalDuplicateDetector) :=
  match question_text, passage, concept with
  | some q, some p, some c => .ok (self.is_duplicate q p c)
  | _, _, _ => .error .attributeError

/-- Python `add_question`: record the lowercased-stripped question, passage and
concept, and append the question fingerprint. -/
def add_question (self : UniversalDuplicateDetector)
    (question_text passage concept : String) : UniversalDuplicateDetector :=
  let ql := pyLowerStrip question_text
  let pl := pyLowerStrip passage
  let cl := pyLowerStrip concept
  { self with
    existing_questions := ql :: self.existing_questions,
    existing_passages := pl :: self.existing_passages,
    existing_concepts := cl :: self.existing_concepts,
    question_fingerprints := self.question_fingerprints ++ [fingerprintOf ql] }

/-- Processing of one record of the bulk load. -/
def processRecord (st : UniversalDuplicateDetector) (r : RCRecord) :
    UniversalDuplicateDetector :=
  let st := match r.question with
    | some q =>
      let ql := pyLowerStrip q
      { st with
        existing_questions := ql :: st.existing_questions,
        question_fingerprints := st.question_fingerprints ++ [fingerprintOf ql] }
    | none => st
  let addP := fun (st : UniversalDuplicateDetector) (v : Option String) =>
    match v with
    | some t => { st with existing_passages := pyLowerStrip t :: st.existing_passages }
    | none => st
  let addC := fun (st : UniversalDuplicateDetector) (v : Option String) =>
    match v with
    | some t => { st with existing_concepts := pyLowerStrip t :: st.existing_concepts }
    | none => st
  addC (addC (addC (addP (addP (addP st r.context) r.passage) r.context_sentence)
    r.grammar_concept) r.synonym_concept) r.antonym_concept

/-- Python `load_existing_questions`: no-op when already loaded; on fetch failure the
`except:` handler only sets `loaded = True` (it does not reset the index,
which is empty for a freshly initialized detector). -/
def load_existing_questions (self : UniversalDuplicateDetector)
    (fetch : Except Unit (List RCRecord)) : UniversalDuplicateDetector :=
  if self.loaded then self
  else
    match fetch with
    | .error _ => { self with loaded := true }
    | .ok recs => { recs.foldl processRecord self with loaded := true }

end UniversalDuplicateDetector

end Readcomp9

/-!
## `isee_vocab.py` : content hashing of `ISEEVocabGenerator`
-/

namespace IseeVocab

/-- Python `generate_content_hash`: SHA-256 of the raw content (no normalization);
the digest is modelled by the content itself (an injective encoding, since the
script only compares digests for equality). -/
def generate_content_hash (content : String) : String :=
  content

/-- The hash input of `save_vocabulary_to_supabase`:
`f"{item['word']}|{item['question']}|{item['correct']}"`. -/
def content_for_hash (word question correct : String) : String :=
  word ++ "|" ++ question ++ "|" ++ correct

end IseeVocab

/-!
## Concrete inputs used in the examples below
-/

/-- A passage whose stripped length is exactly `MIN_PASSAGE_LENGTH`. -/
def passage200 : String :=
  String.mk (List.replicate 200 'a')

/-- A passage whose stripped length exceeds `MIN_PASSAGE_LENGTH`. -/
def passage201 : String :=
  String.mk (List.replicate 201 'a')

/-- A 20-character candidate sharing 17 characters with `boundaryExisting`:
their `SequenceMatcher` ratio is `2 * 17 / 40 = 0.85`, the threshold exactly. -/
def boundaryCandidate : String :=
  String.mk (List.replicate 17 'a' ++ ['b', 'c', 'd'])

/-- The retained counterpart of `boundaryCandidate`. -/
def boundaryExisting : String :=
  String.mk (List.replicate 17 'a' ++ ['e', 'f', 'g'])

/-- A detector state whose fingerprint list holds exactly `boundaryExisting`. -/
def rcBoundaryState : Readcomp9.UniversalDuplicateDetector :=
  { Readcomp9.UniversalDuplicateDetector.init with
    question_fingerprints := [boundaryExisting] }

/-!
## Lemmas about the whitespace normalizers

The target is `normalize_eq_join_split`: collapsing whitespace runs after
stripping produces exactly the single-space join of `str.split()`, so the
content hash of `isee_generator.py` is determined by the word sequence of the
lowercased text.
-/

theorem stripRight_cons_of_ne {c : Char} (t : List Char)
    (h : t.reverse.dropWhile pyIsSpace ≠ []) :
    stripRight (c :: t) = c :: stripRight t := by
  unfold stripRight
  rw [List.reverse_cons, List.dropWhile_append,
    if_neg (by simpa [List.isEmpty_iff] using h)]
  simp

theorem stripRight_cons_nonspace {c : Char} (t : List Char) (hc : ¬ pyIsSpace c) :
    stripRight (c :: t) = c :: stripRight t := by
  by_cases h : t.reverse.dropWhile pyIsSpace = []
  · unfold stripRight
    rw [List.reverse_cons, List.dropWhile_append, if_pos (by simp [h]), h]
    simp [List.dropWhile_cons, hc]
  · exact stripRight_cons_of_ne t h

theorem stripRight_eq_nil_of_allspace {t : List Char} (h : ∀ x ∈ t, pyIsSpace x) :
    stripRight t = [] := by
  unfold stripRight
  rw [List.dropWhile_eq_nil_iff.mpr (fun x hx => h x (List.mem_reverse.mp hx))]
  rfl

theorem splitAux_nil_of_allspace (t : List Char) (h : ∀ x ∈ t, pyIsSpace x) :
    splitAux [] t = [] := by
  induction t with
  | nil => rfl
  | cons c t ih =>
    have hc : pyIsSpace c := h c (List.mem_cons_self ..)
    simp only [splitAux, hc, if_true, List.isEmpty_nil]
    exact ih (fun x hx => h x (List.mem_cons_of_mem _ hx))

theorem splitAux_ne_nil (t : List Char) : ∀ acc, acc ≠ [] → splitAux acc t ≠ [] := by
  induction t with
  | nil =>
    intro acc h
    simp [splitAux, List.isEmpty_iff, h]
  | cons c t ih =>
    intro acc h
    by_cases hc : pyIsSpace c
    · simp [splitAux, hc, List.isEmpty_iff, h]
    · simp only [splitAux, hc, if_false, Bool.false_eq_true]
      exact ih (c :: acc) (by simp)

theorem splitAux_nil_iff (t : List Char) :
    splitAux [] t = [] ↔ ∀ x ∈ t, pyIsSpace x := by
  constructor
  · induction t with
    | nil => intro _ x hx; exact absurd hx (List.not_mem_nil x)
    | cons c t ih =>
      intro hnil x hx
      by_cases hc : pyIsSpace c
      · simp only [splitAux, hc, if_true, List.isEmpty_nil] at hnil
        rcases List.mem_cons.mp hx with rfl | hxt
        · exact hc
        · exact ih hnil x hxt
      · simp only [splitAux, hc, if_false, Bool.false_eq_true] at hnil
        exact absurd hnil (splitAux_ne_nil t [c] (by simp))
  · exact splitAux_nil_of_allspace t

theorem collapseAux_true_eq (u : List Char) :
    collapseAux true u = collapseAux false (u.dropWhile pyIsSpace) := by
  induction u with
  | nil => rfl
  | cons c u ih =>
    by_cases hc : pyIsSpace c
    · simp only [collapseAux, hc, if_true, List.dropWhile_cons]
      exact ih
    · simp [collapseAux, hc, List.dropWhile_cons]

theorem dropWhile_stripRight_comm (t : List Char) :
    (stripRight t).dropWhile pyIsSpace = stripRight (t.dropWhile pyIsSpace) := by
  induction t with
  | nil => rfl
  | cons c t ih =>
    by_cases hc : pyIsSpace c
    · by_cases hall : t.reverse.dropWhile pyIsSpace = []
      · have ht : ∀ x ∈ t, pyIsSpace x := fun x hx =>
          (List.dropWhile_eq_nil_iff.mp hall) x (List.mem_reverse.mpr hx)
        have h1 : stripRight (c :: t) = [] :=
          stripRight_eq_nil_of_allspace (fun x hx => by
            rcases List.mem_cons.mp hx with rfl | hxt
            · exact hc
            · exact ht x hxt)
        have h3 : t.dropWhile pyIsSpace = [] := List.dropWhile_eq_nil_iff.mpr ht
        rw [h1]
        simp [List.dropWhile_cons, hc, h3, stripRight]
      · rw [stripRight_cons_of_ne t hall]
        simp only [List.dropWhile_cons, hc, if_true]
        rw [ih]
    · rw [stripRight_cons_nonspace t hc]
      have h2 : (c :: t).dropWhile pyIsSpace = c :: t := by
        simp [List.dropWhile_cons, hc]
      rw [h2, stripRight_cons_nonspace t hc]
      simp [List.dropWhile_cons, hc]

theorem splitAux_join (t : List Char) :
    (collapseAux false (stripRight (t.dropWhile pyIsSpace)) = pyJoin ' ' (splitAux [] t))
    ∧ ∀ acc, acc ≠ [] →
      pyJoin ' ' (splitAux acc t) = acc.reverse ++ collapseAux false (stripRight t) := by
  induction t with
  | nil =>
    refine ⟨rfl, fun acc h => ?_⟩
    simp [splitAux, List.isEmpty_iff, h, stripRight, pyJoin, collapseAux]
  | cons c t ih =>
    obtain ⟨ihA, ihB⟩ := ih
    by_cases hc : pyIsSpace c
    · constructor
      · have h1 : (c :: t).dropWhile pyIsSpace = t.dropWhile pyIsSpace := by
          simp [List.dropWhile_cons, hc]
        have h2 : splitAux [] (c :: t) = splitAux [] t := by
          simp [splitAux, hc]
        rw [h1, h2]
        exact ihA
      · intro acc hacc
        have h2 : splitAux acc (c :: t) = acc.reverse :: splitAux [] t := by
          simp [splitAux, hc, List.isEmpty_iff, hacc]
        rw [h2]
        by_cases hall : t.reverse.dropWhile pyIsSpace = []
        · have ht : ∀ x ∈ t, pyIsSpace x := fun x hx =>
            (List.dropWhile_eq_nil_iff.mp hall) x (List.mem_reverse.mpr hx)
          have h3 : splitAux [] t = [] := splitAux_nil_of_allspace t ht
          have h4 : stripRight (c :: t) = [] :=
            stripRight_eq_nil_of_allspace (fun x hx => by
              rcases List.mem_cons.mp hx with rfl | hxt
              · exact hc
              · exact ht x hxt)
          rw [h3, h4]
          simp [pyJoin, collapseAux]
        · have h4 : stripRight (c :: t) = c :: stripRight t := stripRight_cons_of_ne t hall
          have h5 : splitAux [] t ≠ [] := by
            intro hctr
            have := (splitAux_nil_iff t).mp hctr
            exact hall (List.dropWhile_eq_nil_iff.mpr
              (fun x hx => this x (List.mem_reverse.mp hx)))
          have h6 : pyJoin ' ' (acc.reverse :: splitAux [] t)
              = acc.reverse ++ ' ' :: pyJoin ' ' (splitAux [] t) := by
            cases hsp : splitAux [] t with
            | nil => exact absurd hsp h5
            | cons w ws => simp [pyJoin]
          rw [h6, h4]
          have h7 : collapseAux false (c :: stripRight t)
              = ' ' :: collapseAux true (stripRight t) := by
            simp [collapseAux, hc]
          rw [h7, collapseAux_true_eq, dropWhile_stripRight_comm, ihA]
    · constructor
      · have h1 : (c :: t).dropWhile pyIsSpace = c :: t := by
          simp [List.dropWhile_cons, hc]
        have h3 : splitAux [] (c :: t) = splitAux [c] t := by
          simp [splitAux, hc]
        rw [h1, h3, stripRight_cons_nonspace t hc]
        have h2 : collapseAux false (c :: stripRight t)
            = c :: collapseAux false (stripRight t) := by
          simp [collapseAux, hc]
        rw [h2, ihB [c] (by simp)]
        rfl
      · intro acc hacc
        have h3 : splitAux acc (c :: t) = splitAux (c :: acc) t := by
          simp [splitAux, hc]
        rw [h3, ihB (c :: acc) (by simp), stripRight_cons_nonspace t hc]
        have h2 : collapseAux false (c :: stripRight t)
            = c :: collapseAux false (stripRight t) := by
          simp [collapseAux, hc]
        rw [h2]
        simp

/-- Whitespace normalization computes the single-space join of `str.split()`. -/
theorem normalize_eq_join_split (s : List Char) :
    pyCollapseWs (pyStrip s) = pyJoin ' ' (pySplit s) :=
  (splitAux_join s).1

/-!
## Preservation lemmas for the add operations
-/

theorem mem_hashes_add_passage (s : IseeGenerator.PassageDuplicateDetector)
    (x passage : String) (h : x ∈ s.existing_hashes) :
    x ∈ (s.add_passage passage).existing_hashes := by
  unfold IseeGenerator.PassageDuplicateDetector.add_passage
  split
  · exact List.mem_cons_of_mem _ h
  · exact h

theorem mem_hashes_foldl_add_passage (rest : List String) :
    ∀ (s : IseeGenerator.PassageDuplicateDetector) (x : String), x ∈ s.existing_hashes →
      x ∈ (rest.foldl IseeGenerator.PassageDuplicateDetector.add_passage s).existing_hashes := by
  induction rest with
  | nil => exact fun s x h => h
  | cons r rest ih => exact fun s x h => ih _ _ (mem_hashes_add_passage s x r h)

theorem mem_words_foldl_add_word (rest : List (String × String)) :
    ∀ (s : IseeSpellbee.SpellBeeDuplicateDetector) (x : String), x ∈ s.existing_words →
      x ∈ (rest.foldl (fun a p => a.add_word p.1 p.2) s).existing_words := by
  induction rest with
  | nil => exact fun s x h => h
  | cons r rest ih =>
    exact fun s x h => ih _ _ (List.mem_cons_of_mem _ h)

theorem mem_questions_foldl_add_question (rest : List (String × String × String)) :
    ∀ (s : Readcomp9.UniversalDuplicateDetector) (x : String), x ∈ s.existing_questions →
      x ∈ (rest.foldl (fun a p => a.add_question p.1 p.2.1 p.2.2) s).existing_questions := by
  induction rest with
  | nil => exact fun s x h => h
  | cons r rest ih =>
    exact fun s x h => ih _ _ (List.mem_cons_of_mem _ h)

/-!
## Claim C1
-/

/-- C1 (counterexample): a passage of stripped length exactly
`MIN_PASSAGE_LENGTH = 200` is classified unique by `is_duplicate`, yet
`add_passage` silently drops it (its guard is strict), so a second check of
the identical passage is again classified unique — the accepted item is not
reflected in the index. -/
theorem c1_boundary_passage_counterexample :
    (IseeGenerator.PassageDuplicateDetector.is_duplicate ⟨[], [], []⟩ passage200).1 = false
    ∧ IseeGenerator.PassageDuplicateDetector.add_passage ⟨[], [], []⟩ passage200
      = (⟨[], [], []⟩ : IseeGenerator.PassageDuplicateDetector)
    ∧ (IseeGenerator.PassageDuplicateDetector.is_duplicate
        (IseeGenerator.PassageDuplicateDetector.add_passage ⟨[], [], []⟩ passage200)
        passage200).1 = false := by
  refine ⟨by decide, by decide, by decide⟩

/-- C1 (amended): for every passage whose stripped length strictly exceeds
`MIN_PASSAGE_LENGTH`, once `add_passage` has accepted it, every later check of
the identical passage — after arbitrarily many further accepts — is classified
duplicate (by exact hash match), so such accepted items are always reflected
in the index. -/
theorem c1_accept_reflected_in_index
    (st : IseeGenerator.PassageDuplicateDetector) (p : String) (rest : List String)
    (h : IseeGenerator.MIN_PASSAGE_LENGTH < (pyStrip p.data).length) :
    ((rest.foldl IseeGenerator.PassageDuplicateDetector.add_passage
      (st.add_passage p)).is_duplicate p).1 = true := by
  have hp : p ≠ "" := by
    intro he
    rw [he] at h
    exact absurd h (by decide)
  have hmem : IseeGenerator.PassageDuplicateDetector.create_content_hash
      (String.mk (pyStrip p.data)) ∈
      (rest.foldl IseeGenerator.PassageDuplicateDetector.add_passage
        (st.add_passage p)).existing_hashes := by
    apply mem_hashes_foldl_add_passage
    unfold IseeGenerator.PassageDuplicateDetector.add_passage
    rw [if_pos ⟨hp, h⟩]
    exact List.mem_cons_self _ _
  unfold IseeGenerator.PassageDuplicateDetector.is_duplicate
  rw [if_neg (by push_neg; exact ⟨hp, Nat.le_of_lt h⟩), if_pos hmem]

/-- Witness for `c1_accept_reflected_in_index` at a 201-character passage. -/
theorem c1_accept_reflected_in_index_witness :
    IseeGenerator.MIN_PASSAGE_LENGTH < (pyStrip passage201.data).length
    ∧ ((([] : List String).foldl IseeGenerator.PassageDuplicateDetector.add_passage
        (IseeGenerator.PassageDuplicateDetector.add_passage ⟨[], [], []⟩ passage201)).is_duplicate
        passage201).1 = true :=
  ⟨by decide, c1_accept_reflected_in_index ⟨[], [], []⟩ passage201 [] (by decide)⟩

/-!
## Claim C2
-/

/-- C2 (counterexample): in `readcomp9_gemini.py` the fuzzy comparison is
strict (`>`), so a candidate whose fingerprint has similarity exactly `0.85`
to a retained fingerprint is classified unique, not duplicate. -/
theorem c2_readcomp_threshold_equality_unique :
    Difflib.ratio (Readcomp9.UniversalDuplicateDetector.fingerprintOf
        (pyLowerStrip boundaryCandidate)).data boundaryExisting.data
      = Readcomp9.FUZZY_SIMILARITY_THRESHOLD
    ∧ (rcBoundaryState.is_duplicate boundaryCandidate "a passage" "a concept").1
      = (false, "Unique question") := by
  exact ⟨by decide, by decide⟩

/-- C2 (amended): in `isee_generator.py` the comparison is `>=`, so whenever
some retained passage has fuzzy similarity exactly equal to
`FUZZY_SIMILARITY_THRESHOLD` to the (stripped) candidate, the candidate is
classified duplicate; the strict-`>` detector of `readcomp9_gemini.py` does
not satisfy this. -/
theorem c2_passage_threshold_equality_duplicate
    (st : IseeGenerator.PassageDuplicateDetector) (p : String)
    (h : ∃ q ∈ st.existing_passages,
      IseeGenerator.PassageDuplicateDetector.calculate_fuzzy_similarity
        (String.mk (pyStrip p.data)) q = IseeGenerator.FUZZY_SIMILARITY_THRESHOLD) :
    (st.is_duplicate p).1 = true := by
  unfold IseeGenerator.PassageDuplicateDetector.is_duplicate
  by_cases h1 : p = "" ∨ (pyStrip p.data).length < IseeGenerator.MIN_PASSAGE_LENGTH
  · rw [if_pos h1]
  · rw [if_neg h1]
    by_cases h2 : IseeGenerator.PassageDuplicateDetector.create_content_hash
        (String.mk (pyStrip p.data)) ∈ st.existing_hashes
    · rw [if_pos h2]
    · rw [if_neg h2]
      by_cases h3 : IseeGenerator.PassageDuplicateDetector.create_content_fingerprint
          (String.mk (pyStrip p.data)) ∈ st.existing_fingerprints
      · rw [if_pos h3]
      · rw [if_neg h3]
        obtain ⟨q, hq, hsim⟩ := h
        have hle : IseeGenerator.FUZZY_SIMILARITY_THRESHOLD ≤
            IseeGenerator.PassageDuplicateDetector.calculate_fuzzy_similarity
              (String.mk (pyStrip p.data)) q := le_of_eq hsim.symm
        cases hfind : st.existing_passages.find?
            (fun q2 => decide (IseeGenerator.FUZZY_SIMILARITY_THRESHOLD ≤
              IseeGenerator.PassageDuplicateDetector.calculate_fuzzy_similarity
                (String.mk (pyStrip p.data)) q2)) with
        | none => exact absurd (decide_eq_true hle) ((List.find?_eq_none.mp hfind) q hq)
        | some y => rfl

/-- Witness for `c2_passage_threshold_equality_duplicate` at the exact-0.85
pair. -/
theorem c2_passage_threshold_equality_duplicate_witness :
    (∃ q ∈ (⟨[boundaryExisting], [], []⟩ :
        IseeGenerator.PassageDuplicateDetector).existing_passages,
      IseeGenerator.PassageDuplicateDetector.calculate_fuzzy_similarity
        (String.mk (pyStrip boundaryCandidate.data)) q
        = IseeGenerator.FUZZY_SIMILARITY_THRESHOLD)
    ∧ ((⟨[boundaryExisting], [], []⟩ :
        IseeGenerator.PassageDuplicateDetector).is_duplicate boundaryCandidate).1 = true :=
  ⟨⟨boundaryExisting, by decide, by decide⟩,
    c2_passage_threshold_equality_duplicate ⟨[boundaryExisting], [], []⟩ boundaryCandidate
      ⟨boundaryExisting, by decide, by decide⟩⟩

/-!
## Claim C3
-/

/-- C3 (counterexample): on an empty index, the spelling-bee check classifies
the empty key as unique — an empty key is not "always duplicate". -/
theorem c3_empty_key_unique_counterexample :
    IseeSpellbee.SpellBeeDuplicateDetector.is_duplicate ⟨[], []⟩ "" "any body"
      = (false, "Unique spelling bee item") := by
  decide

/-- C3 (amended): an empty key is not rejected outright.  The spelling-bee
check classifies it duplicate exactly when the empty string was previously
recorded as a word, or the (lowercased) body was previously recorded as a
question; only the passage detector rejects the empty string always, through
its minimum-length gate. -/
theorem c3_empty_key_characterization
    (sb : IseeSpellbee.SpellBeeDuplicateDetector) (q : String)
    (pd : IseeGenerator.PassageDuplicateDetector) :
    ((sb.is_duplicate "" q).1 = true ↔
      ("" ∈ sb.existing_words ∨ pyLowerString q ∈ sb.existing_questions))
    ∧ pd.is_duplicate "" = (true, "Passage too short") := by
  constructor
  · unfold IseeSpellbee.SpellBeeDuplicateDetector.is_duplicate
    have h0 : pyLowerString "" = "" := rfl
    rw [h0]
    by_cases h1 : ("" : String) ∈ sb.existing_words
    · simp [h1]
    · by_cases h2 : pyLowerString q ∈ sb.existing_questions
      · simp [h1, h2]
      · simp [h1, h2]
  · unfold IseeGenerator.PassageDuplicateDetector.is_duplicate
    rw [if_pos (Or.inl rfl)]

/-!
## Claim C4
-/

/-- C4 (confirmed): once `add_word`/`add_question` has recorded a key, every
later check with the same key — any body, after arbitrarily many further
accepts — is classified duplicate with the key-already-exists reason, in both
key-bearing detectors (`isee_spellbee.py`: "Word ... already exists";
`readcomp9_gemini.py`: "Exact question exists"). -/
theorem c4_key_monotonicity
    (sb : IseeSpellbee.SpellBeeDuplicateDetector) (w q : String)
    (rest : List (String × String)) (q2 : String)
    (rc : Readcomp9.UniversalDuplicateDetector) (qt ps cp : String)
    (rrest : List (String × String × String)) (ps2 cp2 : String) :
    ((rest.foldl (fun a p => a.add_word p.1 p.2) (sb.add_word w q)).is_duplicate w q2
      = (true, IseeSpellbee.SpellBeeDuplicateDetector.word_exists_reason w))
    ∧ (((rrest.foldl (fun a p => a.add_question p.1 p.2.1 p.2.2)
        (rc.add_question qt ps cp)).is_duplicate qt ps2 cp2).1
      = (true, "Exact question exists")) := by
  constructor
  · have hmem : pyLowerString w ∈
        (rest.foldl (fun a p => a.add_word p.1 p.2) (sb.add_word w q)).existing_words :=
      mem_words_foldl_add_word rest _ _ (List.mem_cons_self _ _)
    unfold IseeSpellbee.SpellBeeDuplicateDetector.is_duplicate
    rw [if_pos hmem]
  · have hmem : pyLowerStrip qt ∈
        (rrest.foldl (fun a p => a.add_question p.1 p.2.1 p.2.2)
          (rc.add_question qt ps cp)).existing_questions :=
      mem_questions_foldl_add_question rrest _ _ (List.mem_cons_self _ _)
    unfold Readcomp9.UniversalDuplicateDetector.is_duplicate
    rw [if_pos hmem]

/-!
## Claim C5
-/

/-- Index-part equality of two `UniversalDuplicateDetector` states: everything
except `loaded` and the mutable `detection_stats` counters. -/
def rcSameIndex (s t : Readcomp9.UniversalDuplicateDetector) : Prop :=
  s.existing_questions = t.existing_questions
  ∧ s.existing_passages = t.existing_passages
  ∧ s.existing_concepts = t.existing_concepts
  ∧ s.question_fingerprints = t.question_fingerprints

theorem rc_is_duplicate_preserves_index
    (s : Readcomp9.UniversalDuplicateDetector) (qt ps cp : String) :
    rcSameIndex (s.is_duplicate qt ps cp).2 s := by
  unfold Readcomp9.UniversalDuplicateDetector.is_duplicate rcSameIndex
  dsimp only
  repeat' split
  all_goals exact ⟨rfl, rfl, rfl, rfl⟩

theorem rc_is_duplicate_congr
    (s t : Readcomp9.UniversalDuplicateDetector) (qt ps cp1 cp2 : String)
    (h1 : s.existing_questions = t.existing_questions)
    (h2 : s.existing_passages = t.existing_passages)
    (h4 : s.question_fingerprints = t.question_fingerprints) :
    (s.is_duplicate qt ps cp1).1 = (t.is_duplicate qt ps cp2).1 := by
  unfold Readcomp9.UniversalDuplicateDetector.is_duplicate
  dsimp only
  rw [h1, h2, h4]
  by_cases k1 : pyLowerStrip qt ∈ t.existing_questions
  · rw [if_pos k1, if_pos k1]
  · rw [if_neg k1, if_neg k1]
    by_cases k2 : pyLowerStrip ps ∈ t.existing_passages
    · rw [if_pos k2, if_pos k2]
    · rw [if_neg k2, if_neg k2]
      cases hfind : t.question_fingerprints.find?
          (fun f => decide (Readcomp9.FUZZY_SIMILARITY_THRESHOLD <
            Difflib.ratio (Readcomp9.UniversalDuplicateDetector.fingerprintOf
              (pyLowerStrip qt)).data f.data)) <;> rfl

/-- C5 (confirmed): repeating the reading-comprehension check without an
accept returns the same classification, and the check never changes the index
(question set, passage set, concept set, fingerprint list) — it only bumps the
`detection_stats` counters.  The other detectors' checks are pure functions of
the state, so the property is immediate for them. -/
theorem c5_check_idempotent
    (st : Readcomp9.UniversalDuplicateDetector) (qt ps cp : String) :
    rcSameIndex (st.is_duplicate qt ps cp).2 st
    ∧ (((st.is_duplicate qt ps cp).2.is_duplicate qt ps cp).1
      = (st.is_duplicate qt ps cp).1) :=
  ⟨rc_is_duplicate_preserves_index st qt ps cp,
    rc_is_duplicate_congr _ _ qt ps cp cp
      (rc_is_duplicate_preserves_index st qt ps cp).1
      (rc_is_duplicate_preserves_index st qt ps cp).2.1
      (rc_is_duplicate_preserves_index st qt ps cp).2.2.2⟩

/-!
## Claim C6
-/

/-- C6 (counterexample): the `SequenceMatcher` similarity used by the filter
is not symmetric: on the pair `"abcdwz"`/`"cdzab"` the two directions give
`4/11` and `6/11`.  (Forward, the greedy matcher picks the tied longest block
`"ab"` first and the crossing block `"cd"` and the `"z"` become unreachable;
backward it picks `"cd"` first and still matches `"z"`.) -/
theorem c6_similarity_asymmetry_counterexample :
    IseeGenerator.PassageDuplicateDetector.calculate_fuzzy_similarity "abcdwz" "cdzab"
      = mkRat 4 11
    ∧ IseeGenerator.PassageDuplicateDetector.calculate_fuzzy_similarity "cdzab" "abcdwz"
      = mkRat 6 11
    ∧ IseeGenerator.PassageDuplicateDetector.calculate_fuzzy_similarity "abcdwz" "cdzab"
      ≠ IseeGenerator.PassageDuplicateDetector.calculate_fuzzy_similarity "cdzab" "abcdwz" := by
  exact ⟨by decide, by decide, by decide⟩

/-- C6 (amended): the fuzzy similarity is not symmetric in general; it is
symmetric whenever the two texts coincide after the normalization the filter
applies before comparing (lowercasing and punctuation removal). -/
theorem c6_symmetric_on_equal_normalization (A B : String)
    (h : pyDropNonWordSpace (pyLower A.data) = pyDropNonWordSpace (pyLower B.data)) :
    IseeGenerator.PassageDuplicateDetector.calculate_fuzzy_similarity A B
      = IseeGenerator.PassageDuplicateDetector.calculate_fuzzy_similarity B A := by
  unfold IseeGenerator.PassageDuplicateDetector.calculate_fuzzy_similarity
  rw [h]

/-- Witness for `c6_symmetric_on_equal_normalization` on a pair differing only
in case and punctuation. -/
theorem c6_symmetric_on_equal_normalization_witness :
    pyDropNonWordSpace (pyLower "Hello!".data) = pyDropNonWordSpace (pyLower "hello".data)
    ∧ IseeGenerator.PassageDuplicateDetector.calculate_fuzzy_similarity "Hello!" "hello"
      = IseeGenerator.PassageDuplicateDetector.calculate_fuzzy_similarity "hello" "Hello!" :=
  ⟨by decide, c6_symmetric_on_equal_normalization "Hello!" "hello" (by decide)⟩

/-!
## Claim C7
-/

/-- C7 (counterexample): a missing (`None`) key raises `AttributeError` inside
the spelling-bee check (at `word.lower()`), so the check does not return a
classification for every malformed input. -/
theorem c7_none_key_raises_counterexample :
    IseeSpellbee.SpellBeeDuplicateDetector.is_duplicate_checked ⟨[], []⟩ none
        (some "some question")
      = .error .attributeError := rfl

/-- C7 (amended): for actual string inputs — the empty string included — the
spelling-bee and reading-comprehension checks always return a classification
and never raise; a `None` argument, by contrast, raises `AttributeError`. -/
theorem c7_string_inputs_never_raise :
    (∀ (st : IseeSpellbee.SpellBeeDuplicateDetector) (w q : String),
      st.is_duplicate_checked (some w) (some q) = .ok (st.is_duplicate w q))
    ∧ (∀ (st : Readcomp9.UniversalDuplicateDetector) (qt ps cp : String),
      st.is_duplicate_checked (some qt) (some ps) (some cp) = .ok (st.is_duplicate qt ps cp)) := by
  constructor
  · intro st w q
    unfold IseeSpellbee.SpellBeeDuplicateDetector.is_duplicate_checked
      IseeSpellbee.SpellBeeDuplicateDetector.is_duplicate
    dsimp only
    by_cases h1 : pyLowerString w ∈ st.existing_words
    · rw [if_pos h1, if_pos h1]
    · rw [if_neg h1, if_neg h1]
      by_cases h2 : pyLowerString q ∈ st.existing_questions
      · rw [if_pos h2, if_pos h2]
      · rw [if_neg h2, if_neg h2]
  · intro st qt ps cp
    rfl

/-!
## Claim C8
-/

/-- C8 (counterexample): after a failed bulk load the passage detector's index
is empty, yet the first candidate `"x"` is classified duplicate ("Passage too
short"), so "the first candidate is classified unique" does not hold for every
candidate. -/
theorem c8_short_first_candidate_counterexample :
    IseeGenerator.PassageDuplicateDetector.load_existing_passages (.error ())
      = (⟨[], [], []⟩ : IseeGenerator.PassageDuplicateDetector)
    ∧ ((IseeGenerator.PassageDuplicateDetector.load_existing_passages
        (.error ())).is_duplicate "x")
      = (true, "Passage too short") := by
  exact ⟨rfl, by decide⟩

/-- C8 (amended): when the bulk load fails, all three detectors proceed with
an empty index, and the first candidate is classified unique — for the passage
detector under the proviso that the candidate passes its minimum-length gate,
and unconditionally for the other two. -/
theorem c8_degraded_load_empty_index (p w q qt ps cp : String)
    (hp : ¬(p = "" ∨ (pyStrip p.data).length < IseeGenerator.MIN_PASSAGE_LENGTH)) :
    (IseeGenerator.PassageDuplicateDetector.load_existing_passages (.error ())
        = (⟨[], [], []⟩ : IseeGenerator.PassageDuplicateDetector)
      ∧ ((IseeGenerator.PassageDuplicateDetector.load_existing_passages
          (.error ())).is_duplicate p).1 = false)
    ∧ (∀ sb : IseeSpellbee.SpellBeeDuplicateDetector,
      sb.load_existing_spellbee (.error ())
        = (⟨[], []⟩ : IseeSpellbee.SpellBeeDuplicateDetector)
      ∧ ((sb.load_existing_spellbee (.error ())).is_duplicate w q).1 = false)
    ∧ ((Readcomp9.UniversalDuplicateDetector.init.load_existing_questions
          (.error ())).existing_questions = []
      ∧ (Readcomp9.UniversalDuplicateDetector.init.load_existing_questions
          (.error ())).existing_passages = []
      ∧ (Readcomp9.UniversalDuplicateDetector.init.load_existing_questions
          (.error ())).question_fingerprints = []
      ∧ (((Readcomp9.UniversalDuplicateDetector.init.load_existing_questions
          (.error ())).is_duplicate qt ps cp).1).1 = false) := by
  refine ⟨⟨rfl, ?_⟩, fun sb => ⟨rfl, ?_⟩, rfl, rfl, rfl, ?_⟩
  · have hload : IseeGenerator.PassageDuplicateDetector.load_existing_passages (.error ())
        = (⟨[], [], []⟩ : IseeGenerator.PassageDuplicateDetector) := rfl
    rw [hload]
    unfold IseeGenerator.PassageDuplicateDetector.is_duplicate
    rw [if_neg hp]
    dsimp only
    rw [if_neg (List.not_mem_nil _), if_neg (List.not_mem_nil _)]
    rfl
  · have hload : sb.load_existing_spellbee (.error ())
        = (⟨[], []⟩ : IseeSpellbee.SpellBeeDuplicateDetector) := rfl
    rw [hload]
    unfold IseeSpellbee.SpellBeeDuplicateDetector.is_duplicate
    dsimp only
    rw [if_neg (List.not_mem_nil _), if_neg (List.not_mem_nil _)]
  · have hload : Readcomp9.UniversalDuplicateDetector.init.load_existing_questions (.error ())
        = Readcomp9.UniversalDuplicateDetector.mk [] [] [] [] true ⟨0, 0, 0, 0⟩ := rfl
    rw [hload]
    unfold Readcomp9.UniversalDuplicateDetector.is_duplicate
    dsimp only
    rw [if_neg (List.not_mem_nil _), if_neg (List.not_mem_nil _)]
    rfl

/-- Witness for `c8_degraded_load_empty_index` with a 201-character first
passage and arbitrary short keys for the other detectors. -/
theorem c8_degraded_load_empty_index_witness :
    ¬(passage201 = "" ∨ (pyStrip passage201.data).length
        < IseeGenerator.MIN_PASSAGE_LENGTH)
    ∧ ((IseeGenerator.PassageDuplicateDetector.load_existing_passages
        (.error ())).is_duplicate passage201).1 = false
    ∧ (((IseeSpellbee.SpellBeeDuplicateDetector.mk [] []).load_existing_spellbee
        (.error ())).is_duplicate "benevolent" "Spell the word.").1 = false
    ∧ (((Readcomp9.UniversalDuplicateDetector.init.load_existing_questions
        (.error ())).is_duplicate "What is the main idea?" "A passage."
        "main idea").1).1 = false :=
  ⟨by decide,
    ((c8_degraded_load_empty_index passage201 "benevolent" "Spell the word."
      "What is the main idea?" "A passage." "main idea" (by decide)).1).2,
    ((c8_degraded_load_empty_index passage201 "benevolent" "Spell the word."
      "What is the main idea?" "A passage." "main idea" (by decide)).2.1
      (IseeSpellbee.SpellBeeDuplicateDetector.mk [] [])).2,
    (c8_degraded_load_empty_index passage201 "benevolent" "Spell the word."
      "What is the main idea?" "A passage." "main idea" (by decide)).2.2.2.2.2⟩

/-!
## Claim C9
-/

/-- C9 (counterexample): the vocabulary generator hashes the raw
`word|question|correct` content with no normalization, so two candidates
differing only in letter case produce different hashes. -/
theorem c9_vocab_hash_case_sensitive_counterexample :
    IseeVocab.generate_content_hash
        (IseeVocab.content_for_hash "Benevolent" "Choose the synonym" "kind")
      ≠ IseeVocab.generate_content_hash
        (IseeVocab.content_for_hash "benevolent" "choose the synonym" "kind") := by
  decide

/-- C9 (amended): the passage detector's content hash is taken over the
normalized content — it depends only on the word sequence of the lowercased
text, so candidates differing only in letter case or whitespace hash
identically; the vocabulary generator's hash, by contrast, is over the raw
content and distinguishes case. -/
theorem c9_passage_hash_normalization (t1 t2 : String)
    (h : pySplit (pyLower t1.data) = pySplit (pyLower t2.data)) :
    IseeGenerator.PassageDuplicateDetector.create_content_hash t1
      = IseeGenerator.PassageDuplicateDetector.create_content_hash t2 := by
  unfold IseeGenerator.PassageDuplicateDetector.create_content_hash
  rw [normalize_eq_join_split, normalize_eq_join_split, h]

/-- Witness for `c9_passage_hash_normalization` on a pair differing only in
case and whitespace. -/
theorem c9_passage_hash_normalization_witness :
    pySplit (pyLower "Hello   WORLD".data) = pySplit (pyLower " hello world ".data)
    ∧ IseeGenerator.PassageDuplicateDetector.create_content_hash "Hello   WORLD"
      = IseeGenerator.PassageDuplicateDetector.create_content_hash " hello world " :=
  ⟨by decide, c9_passage_hash_normalization "Hello   WORLD" " hello world " (by decide)⟩

/-!
## Claim C10
-/

/-- C10 (confirmed): the reading-comprehension check's classification (flag
and reason) is the same for any two values of the concept argument and for any
replacement of the loaded concept set — neither ever influences an outcome. -/
theorem c10_concept_argument_dead
    (st : Readcomp9.UniversalDuplicateDetector) (qt ps c1 c2 : String)
    (cs : List String) :
    (Readcomp9.UniversalDuplicateDetector.is_duplicate
        { st with existing_concepts := cs } qt ps c1).1
      = (st.is_duplicate qt ps c2).1 :=
  rc_is_duplicate_congr _ _ qt ps c1 c2 rfl rfl rfl

end EduApp
